import Mathlib

/-!
Shallow embedding of the mapscii core (TileSource.ts and LabelBuffer.ts)
and verification of the specification's claims about it.

Conventions of the embedding:
* JS `number` values that stay exact in the program (coordinates, margins)
  are modelled as `ℚ`; integer tile coordinates as `ℕ`/`ℤ`.
* The rbush spatial index is modelled as a list of boxes in insertion
  order; rbush's `collides`/`search` use closed-box intersection
  (touching edges count), which `intersects` reproduces.
* The external `string-width` collaborator is abstracted by passing a
  label's display width (a natural number) directly.
* JS objects used as string-keyed maps are association lists preserving
  JS property insertion order (`objSet`, `objGet`).
-/

namespace Mapscii

/-- A label bounding box as stored in the rbush index, together with the
feature back-reference (`data.feature = feature` in `writeIfPossible`).
Features are identified by an opaque numeric id. -/
structure LabelBounds where
  minX : ℚ
  minY : ℚ
  maxX : ℚ
  maxY : ℚ
  feature : ℕ
deriving DecidableEq, Repr

/-- State of `LabelBuffer`: the rbush tree (list of boxes in insertion
order) and the default margin (constructor sets `this.margin = 5`). -/
structure LabelBuffer where
  tree : List LabelBounds
  margin : ℚ
deriving DecidableEq, Repr

/-- Constructor `new LabelBuffer()`: empty tree, margin 5. -/
def newLabelBuffer : LabelBuffer :=
  { tree := [], margin := 5 }

/-- Method `clear()`: `this.tree.clear()`. -/
def clearBuffer (buf : LabelBuffer) : LabelBuffer :=
  { buf with tree := [] }

/-- Method `project(x, y)`: `[Math.floor(x / 2), Math.floor(y / 4)]`. -/
def project (x y : ℚ) : ℤ × ℤ :=
  (⌊x / 2⌋, ⌊y / 4⌋)

/-- rbush box intersection (used by both `collides` and `search`):
`b.minX <= a.maxX && b.minY <= a.maxY && b.maxX >= a.minX && b.maxY >= a.minY`,
with `a` the query box and `b` the stored item; touching edges count. -/
def intersects (a b : LabelBounds) : Bool :=
  decide (b.minX ≤ a.maxX ∧ b.minY ≤ a.maxY ∧ a.minX ≤ b.maxX ∧ a.minY ≤ b.maxY)

/-- rbush `collides(box)`: is there any stored item intersecting `box`? -/
def collides (tree : List LabelBounds) (box : LabelBounds) : Bool :=
  tree.any (fun r => intersects box r)

/-- rbush `search(box)`: all stored items intersecting `box`. -/
def searchTree (tree : List LabelBounds) (box : LabelBounds) : List LabelBounds :=
  tree.filter (fun r => intersects box r)

/-- Method `_calculateArea(text, x, y, margin = 0)` with `w` the display width of
`text` (external `string-width` collaborator). -/
def calculateArea (w : ℕ) (x y : ℚ) (margin : ℚ) : LabelBounds :=
  { minX := x - margin
    minY := y - margin / 2
    maxX := x + margin + w
    maxY := y + margin / 2
    feature := 0 }

/-- Assignment `margin = margin || this.margin`: both `undefined` and `0` are falsy,
so an absent argument and an explicit `0` both select the default. -/
def jsOrMargin (marginArg : Option ℚ) (dflt : ℚ) : ℚ :=
  match marginArg with
  | none => dflt
  | some m => if m = 0 then dflt else m

/-- Method `_hasSpace(text, x, y)`: `!this.tree.collides(this._calculateArea(text, x, y))`.
The margin parameter of `_calculateArea` is not passed, so it defaults to 0. -/
def hasSpace (buf : LabelBuffer) (w : ℕ) (x y : ℚ) : Bool :=
  !(collides buf.tree (calculateArea w x y 0))

/-- Method `writeIfPossible(text, x, y, feature, margin?)`. Returns the updated
buffer and whether the placement was accepted. -/
def writeIfPossible (buf : LabelBuffer) (w : ℕ) (x y : ℚ) (feature : ℕ)
    (marginArg : Option ℚ) : LabelBuffer × Bool :=
  let margin := jsOrMargin marginArg buf.margin
  let p := project x y
  let px : ℚ := (p.1 : ℚ)
  let py : ℚ := (p.2 : ℚ)
  if hasSpace buf w px py then
    let data := { calculateArea w px py margin with feature := feature }
    ({ buf with tree := buf.tree ++ [data] }, true)
  else
    (buf, false)

/-- Method `featuresAt(x, y)` evaluates `this.tree.search({minX: x, maxX: x, minY: y, maxY: y})`
and discards the result: the function body has no `return` statement, so the
call always evaluates to `undefined`, modelled as `none`. -/
def featuresAt (buf : LabelBuffer) (x y : ℚ) : Option (List LabelBounds) :=
  let _searched := searchTree buf.tree
    { minX := x, minY := y, maxX := x, maxY := y, feature := 0 }
  none

/-- A `writeIfPossible` call's arguments: display width of the text, anchor
coordinates, feature id, optional margin override. -/
structure PlaceReq where
  w : ℕ
  x : ℚ
  y : ℚ
  feature : ℕ
  marginArg : Option ℚ
deriving DecidableEq, Repr

/-- The projected grid point of a request, as rationals. -/
def reqPoint (r : PlaceReq) : ℚ × ℚ :=
  (((project r.x r.y).1 : ℚ), ((project r.x r.y).2 : ℚ))

/-- The rectangle `_hasSpace` actually tests: `_calculateArea(text, x, y)`
with the margin parameter left at its default `0`. -/
def reqCore (r : PlaceReq) : LabelBounds :=
  calculateArea r.w (reqPoint r).1 (reqPoint r).2 0

/-- The rectangle inserted on acceptance: margin-expanded, tagged with the
feature. `dflt` is the buffer's default margin. -/
def reqInserted (dflt : ℚ) (r : PlaceReq) : LabelBounds :=
  { calculateArea r.w (reqPoint r).1 (reqPoint r).2 (jsOrMargin r.marginArg dflt) with
      feature := r.feature }

/-- One `writeIfPossible` call described by a `PlaceReq`. -/
def applyReq (buf : LabelBuffer) (r : PlaceReq) : LabelBuffer × Bool :=
  writeIfPossible buf r.w r.x r.y r.feature r.marginArg

/-- The requests accepted while running a sequence of `writeIfPossible`
calls against `buf`, in call order. -/
def acceptedReqs (buf : LabelBuffer) : List PlaceReq → List PlaceReq
  | [] => []
  | r :: rest =>
    if (applyReq buf r).2 then r :: acceptedReqs (applyReq buf r).1 rest
    else acceptedReqs (applyReq buf r).1 rest

theorem applyReq_accept (buf : LabelBuffer) (r : PlaceReq)
    (h : (applyReq buf r).2 = true) :
    (applyReq buf r).1 = { buf with tree := buf.tree ++ [reqInserted buf.margin r] } ∧
      collides buf.tree (reqCore r) = false := by
  unfold applyReq writeIfPossible at *
  by_cases hs : hasSpace buf r.w ((project r.x r.y).1 : ℚ) ((project r.x r.y).2 : ℚ) = true
  · refine ⟨by simp [hs, reqInserted, reqPoint], ?_⟩
    unfold hasSpace at hs
    simpa using hs
  · simp only [Bool.not_eq_true] at hs
    simp [hs] at h

theorem applyReq_reject (buf : LabelBuffer) (r : PlaceReq)
    (h : (applyReq buf r).2 = false) :
    (applyReq buf r).1 = buf := by
  unfold applyReq writeIfPossible at *
  by_cases hs : hasSpace buf r.w ((project r.x r.y).1 : ℚ) ((project r.x r.y).2 : ℚ) = true
  · simp [hs] at h
  · simp only [Bool.not_eq_true] at hs
    simp [hs]

theorem applyReq_margin (buf : LabelBuffer) (r : PlaceReq) :
    (applyReq buf r).1.margin = buf.margin := by
  unfold applyReq writeIfPossible
  by_cases hs : hasSpace buf r.w ((project r.x r.y).1 : ℚ) ((project r.x r.y).2 : ℚ) = true
  · simp [hs]
  · simp only [Bool.not_eq_true] at hs
    simp [hs]

theorem applyReq_tree_mono (buf : LabelBuffer) (r : PlaceReq) (b : LabelBounds)
    (hb : b ∈ buf.tree) : b ∈ (applyReq buf r).1.tree := by
  unfold applyReq writeIfPossible
  by_cases hs : hasSpace buf r.w ((project r.x r.y).1 : ℚ) ((project r.x r.y).2 : ℚ) = true
  · simp only [hs, if_true]
    exact List.mem_append_left _ hb
  · simp only [Bool.not_eq_true] at hs
    simpa [hs] using hb

/-- Every request accepted during a run has a core rectangle that clears
every rectangle already present when the run started (the tree only grows
during a run). -/
theorem acceptedReqs_clear_initial (reqs : List PlaceReq) (buf : LabelBuffer) :
    ∀ b ∈ acceptedReqs buf reqs, ∀ t ∈ buf.tree, intersects (reqCore b) t = false := by
  induction reqs generalizing buf with
  | nil => simp [acceptedReqs]
  | cons r rest ih =>
    intro b hb t ht
    unfold acceptedReqs at hb
    by_cases hacc : (applyReq buf r).2 = true
    · simp only [hacc, if_true, List.mem_cons] at hb
      rcases hb with hb | hb
      · subst hb
        have hc := (applyReq_accept buf b hacc).2
        simp only [collides, List.any_eq_false] at hc
        simpa using hc t ht
      · exact ih (applyReq buf r).1 b hb t (applyReq_tree_mono buf r t ht)
    · simp only [hacc, if_false, Bool.false_eq_true] at hb
      exact ih (applyReq buf r).1 b hb t (applyReq_tree_mono buf r t ht)

/-- During any run, each accepted request's core rectangle clears the
margin-expanded rectangle inserted by every earlier accepted request. -/
theorem acceptedReqs_pairwise (reqs : List PlaceReq) (buf : LabelBuffer) :
    List.Pairwise
      (fun a b => intersects (reqCore b) (reqInserted buf.margin a) = false)
      (acceptedReqs buf reqs) := by
  induction reqs generalizing buf with
  | nil => simp [acceptedReqs]
  | cons r rest ih =>
    unfold acceptedReqs
    by_cases hacc : (applyReq buf r).2 = true
    · simp only [hacc, if_true]
      have hbuf := (applyReq_accept buf r hacc).1
      refine List.Pairwise.cons ?_ ?_
      · intro b hb
        refine acceptedReqs_clear_initial rest (applyReq buf r).1 b hb _ ?_
        rw [hbuf]
        simp
      · have := ih (applyReq buf r).1
        rwa [applyReq_margin buf r] at this
    · simp only [hacc, if_false, Bool.false_eq_true]
      have := ih (applyReq buf r).1
      rwa [applyReq_margin buf r] at this

theorem acceptedReqs_subset (reqs : List PlaceReq) (buf : LabelBuffer) :
    ∀ r ∈ acceptedReqs buf reqs, r ∈ reqs := by
  induction reqs generalizing buf with
  | nil => simp [acceptedReqs]
  | cons r rest ih =>
    intro b hb
    unfold acceptedReqs at hb
    by_cases hacc : (applyReq buf r).2 = true
    · simp only [hacc, if_true, List.mem_cons] at hb
      rcases hb with hb | hb
      · subst hb
        exact List.mem_cons_self _ _
      · exact List.mem_cons_of_mem _ (ih (applyReq buf r).1 b hb)
    · simp only [hacc, if_false, Bool.false_eq_true] at hb
      exact List.mem_cons_of_mem _ (ih (applyReq buf r).1 b hb)

/-- Box intersection is monotone in the stored item: enlarging the item
preserves an intersection. -/
theorem intersects_mono (q b b' : LabelBounds)
    (h1 : b'.minX ≤ b.minX) (h2 : b.maxX ≤ b'.maxX)
    (h3 : b'.minY ≤ b.minY) (h4 : b.maxY ≤ b'.maxY)
    (h : intersects q b = true) : intersects q b' = true := by
  simp only [intersects, decide_eq_true_eq] at h ⊢
  obtain ⟨ha, hb, hc, hd⟩ := h
  exact ⟨le_trans h1 ha, le_trans h3 hb, le_trans hc h2, le_trans hd h4⟩

theorem effective_margin_nonneg (marginArg : Option ℚ) (dflt : ℚ)
    (hd : 0 ≤ dflt) (h : ∀ m, marginArg = some m → 0 ≤ m) :
    0 ≤ jsOrMargin marginArg dflt := by
  cases marginArg with
  | none => exact hd
  | some m =>
    simp only [jsOrMargin]
    by_cases hm : m = 0
    · simp [hm, hd]
    · simpa [hm] using h m rfl

theorem applyReq_snd (buf : LabelBuffer) (r : PlaceReq) :
    (applyReq buf r).2 = !(collides buf.tree (reqCore r)) := by
  unfold applyReq writeIfPossible
  by_cases hs : hasSpace buf r.w ((project r.x r.y).1 : ℚ) ((project r.x r.y).2 : ℚ) = true
  · simp only [hs, if_true]
    unfold hasSpace at hs
    simp [reqCore, reqPoint, hs.symm]
  · simp only [Bool.not_eq_true] at hs
    simp only [hs, Bool.false_eq_true, if_false]
    unfold hasSpace at hs
    simp [reqCore, reqPoint, hs.symm]

/-- Evaluation of a first concrete call: a width-1 label anchored at
pixel `(0, 0)` on an empty buffer is accepted and stored with the default
margin 5 around grid point `(0, 0)`. -/
theorem write_eval_first :
    writeIfPossible newLabelBuffer 1 0 0 0 none =
      ({ tree := [{ minX := -5, minY := -5/2, maxX := 6, maxY := 5/2, feature := 0 }],
         margin := 5 }, true) := by
  have hp : project 0 0 = (0, 0) := by norm_num [project, Prod.ext_iff]
  simp only [writeIfPossible, hasSpace, collides, calculateArea, jsOrMargin,
    newLabelBuffer, hp, List.any_nil, Bool.not_false, if_true]
  norm_num [LabelBounds.mk.injEq, LabelBuffer.mk.injEq, Prod.ext_iff]

/-- Evaluation of a second concrete call: a width-1 label anchored at pixel
`(14, 0)` (grid point `(7, 0)`) is accepted — its margin-0 test rectangle
`[7, 8] × [0, 0]` clears the stored box `[-5, 6] × [-5/2, 5/2]` — and its
margin-5 expansion `[2, 13] × [-5/2, 5/2]` is inserted. -/
theorem write_eval_second :
    writeIfPossible
      { tree := [{ minX := -5, minY := -5/2, maxX := 6, maxY := 5/2, feature := 0 }],
        margin := 5 } 1 14 0 1 none =
      ({ tree := [{ minX := -5, minY := -5/2, maxX := 6, maxY := 5/2, feature := 0 },
                  { minX := 2, minY := -5/2, maxX := 13, maxY := 5/2, feature := 1 }],
         margin := 5 }, true) := by
  have hp : project 14 0 = (7, 0) := by norm_num [project, Prod.ext_iff]
  simp only [writeIfPossible, hasSpace, collides, jsOrMargin, hp, List.any_cons,
    List.any_nil]
  norm_num [intersects, decide_eq_false_iff_not, calculateArea, LabelBounds.mk.injEq,
    LabelBuffer.mk.injEq, Prod.ext_iff]

/-- Evaluation of a width-6 label (display width of "Berlin") anchored at
pixel `(100, 100)`: accepted on an empty buffer and stored as the box
`[45, 61] × [45/2, 55/2]` around grid point `(50, 25)`. -/
theorem write_eval_berlin :
    writeIfPossible newLabelBuffer 6 100 100 7 none =
      ({ tree := [{ minX := 45, minY := 45/2, maxX := 61, maxY := 55/2, feature := 7 }],
         margin := 5 }, true) := by
  have hp : project 100 100 = (50, 25) := by norm_num [project, Prod.ext_iff]
  simp only [writeIfPossible, hasSpace, collides, calculateArea, jsOrMargin,
    newLabelBuffer, hp, List.any_nil, Bool.not_false, if_true]
  norm_num [LabelBounds.mk.injEq, LabelBuffer.mk.injEq, Prod.ext_iff]

/-- C2 (counterexample): two `writeIfPossible` calls are both accepted, yet
the two rectangles they insert intersect each other (with positive overlap
area, not just touching): `_hasSpace` tests the margin-0 rectangle while the
margin-expanded rectangle is inserted, so margins of accepted labels may
overlap rectangles already in the index. -/
theorem accepted_rectangles_can_overlap :
    (writeIfPossible newLabelBuffer 1 0 0 0 none).2 = true ∧
    (writeIfPossible (writeIfPossible newLabelBuffer 1 0 0 0 none).1 1 14 0 1 none).2 = true ∧
    (writeIfPossible (writeIfPossible newLabelBuffer 1 0 0 0 none).1 1 14 0 1 none).1.tree =
      [{ minX := -5, minY := -5/2, maxX := 6, maxY := 5/2, feature := 0 },
       { minX := 2, minY := -5/2, maxX := 13, maxY := 5/2, feature := 1 }] ∧
    intersects { minX := -5, minY := -5/2, maxX := 6, maxY := 5/2, feature := 0 }
      { minX := 2, minY := -5/2, maxX := 13, maxY := 5/2, feature := 1 } = true ∧
    ((2 : ℚ) < 6 ∧ (-5/2 : ℚ) < 5/2) := by
  rw [write_eval_first]
  simp only [write_eval_second]
  refine ⟨trivial, trivial, trivial, ?_, by norm_num⟩
  simp only [intersects, decide_eq_true_eq]
  norm_num

/-- C2 (amended): for every sequence of `writeIfPossible` calls starting
from a fresh buffer, each accepted call's margin-0 candidate rectangle
clears the (margin-expanded) rectangle inserted by every earlier accepted
call; consequently, when no negative margin override is passed, the
unexpanded core rectangles of the accepted labels are pairwise
non-intersecting. The inserted margin-expanded rectangles themselves may
overlap within their margins. -/
theorem accepted_label_cores_pairwise_disjoint (reqs : List PlaceReq)
    (hm : ∀ r ∈ reqs, ∀ m, r.marginArg = some m → 0 ≤ m) :
    List.Pairwise (fun a b => intersects (reqCore b) (reqInserted 5 a) = false)
      (acceptedReqs newLabelBuffer reqs) ∧
    List.Pairwise (fun a b => intersects (reqCore b) (reqCore a) = false)
      (acceptedReqs newLabelBuffer reqs) := by
  have hpw := acceptedReqs_pairwise reqs newLabelBuffer
  have hm5 : newLabelBuffer.margin = 5 := rfl
  rw [hm5] at hpw
  refine ⟨hpw, List.Pairwise.imp_of_mem ?_ hpw⟩
  intro a b ha hb h
  have hma : 0 ≤ jsOrMargin a.marginArg 5 :=
    effective_margin_nonneg _ _ (by norm_num)
      (hm a (acceptedReqs_subset reqs newLabelBuffer a ha))
  by_contra hne
  rw [Bool.not_eq_false] at hne
  have hmono := intersects_mono (reqCore b) (reqCore a) (reqInserted 5 a) ?_ ?_ ?_ ?_ hne
  · rw [h] at hmono
    exact Bool.false_ne_true hmono
  · simp only [reqCore, reqInserted, calculateArea]
    linarith
  · simp only [reqCore, reqInserted, calculateArea]
    linarith
  · simp only [reqCore, reqInserted, calculateArea]
    linarith
  · simp only [reqCore, reqInserted, calculateArea]
    linarith

/-- C2 (witness): concrete instantiation of the pairwise-disjointness
theorem on the two-request run used in the counterexample. -/
theorem accepted_label_cores_pairwise_disjoint_witness :
    List.Pairwise (fun a b => intersects (reqCore b) (reqCore a) = false)
      (acceptedReqs newLabelBuffer
        [⟨1, 0, 0, 0, none⟩, ⟨1, 14, 0, 1, none⟩]) :=
  (accepted_label_cores_pairwise_disjoint
    [⟨1, 0, 0, 0, none⟩, ⟨1, 14, 0, 1, none⟩] (by simp)).2

/-- C3 (counterexample): the rectangle tested for collision is not the
rectangle inserted on acceptance. In the concrete two-call run, the second
call is accepted even though its margin-expanded rectangle (the rectangle
it then inserts) collides with the rectangle already in the index — which
would be impossible if the tested rectangle were the inserted one — and the
margin-expanded candidate differs from the margin-0 candidate actually
tested. -/
theorem tested_rectangle_differs_from_inserted :
    (writeIfPossible (writeIfPossible newLabelBuffer 1 0 0 0 none).1 1 14 0 1 none).2 = true ∧
    collides (writeIfPossible newLabelBuffer 1 0 0 0 none).1.tree
      (calculateArea 1 7 0 (jsOrMargin none 5)) = true ∧
    calculateArea 1 7 0 (jsOrMargin none 5) ≠ calculateArea 1 7 0 0 := by
  rw [write_eval_first]
  simp only [write_eval_second]
  refine ⟨trivial, ?_, ?_⟩
  · simp only [collides, List.any_cons, List.any_nil, intersects, calculateArea,
      jsOrMargin, decide_eq_true_eq, Bool.or_eq_true]
    norm_num
  · simp only [calculateArea, jsOrMargin, ne_eq, LabelBounds.mk.injEq]
    norm_num

/-- C3 (amended): the rectangle tested for collision against the index is
the unexpanded candidate — horizontal span equal to the display width `w`
starting at the projected grid X, one grid row vertically, with no margin
expansion — while the rectangle inserted on acceptance is that candidate
expanded by the full effective margin horizontally and half of it
vertically on both sides, tagged with the feature. -/
theorem write_tests_unexpanded_inserts_expanded (buf : LabelBuffer) (w : ℕ)
    (x y : ℚ) (f : ℕ) (marginArg : Option ℚ) :
    ((writeIfPossible buf w x y f marginArg).2 = true ↔
      ∀ t ∈ buf.tree,
        intersects
          { minX := ((project x y).1 : ℚ), minY := ((project x y).2 : ℚ),
            maxX := ((project x y).1 : ℚ) + w, maxY := ((project x y).2 : ℚ),
            feature := 0 } t = false) ∧
    ((writeIfPossible buf w x y f marginArg).2 = true →
      (writeIfPossible buf w x y f marginArg).1.tree = buf.tree ++
        [{ minX := ((project x y).1 : ℚ) - jsOrMargin marginArg buf.margin,
           minY := ((project x y).2 : ℚ) - jsOrMargin marginArg buf.margin / 2,
           maxX := ((project x y).1 : ℚ) + jsOrMargin marginArg buf.margin + w,
           maxY := ((project x y).2 : ℚ) + jsOrMargin marginArg buf.margin / 2,
           feature := f }]) := by
  have hcore : reqCore ⟨w, x, y, f, marginArg⟩ =
      { minX := ((project x y).1 : ℚ), minY := ((project x y).2 : ℚ),
        maxX := ((project x y).1 : ℚ) + w, maxY := ((project x y).2 : ℚ),
        feature := 0 } := by
    simp [reqCore, reqPoint, calculateArea]
  have hins : reqInserted buf.margin ⟨w, x, y, f, marginArg⟩ =
      { minX := ((project x y).1 : ℚ) - jsOrMargin marginArg buf.margin,
        minY := ((project x y).2 : ℚ) - jsOrMargin marginArg buf.margin / 2,
        maxX := ((project x y).1 : ℚ) + jsOrMargin marginArg buf.margin + w,
        maxY := ((project x y).2 : ℚ) + jsOrMargin marginArg buf.margin / 2,
        feature := f } := by
    simp [reqInserted, reqPoint, calculateArea]
  constructor
  · have h := applyReq_snd buf ⟨w, x, y, f, marginArg⟩
    rw [show applyReq buf ⟨w, x, y, f, marginArg⟩ =
        writeIfPossible buf w x y f marginArg from rfl, hcore] at h
    rw [h]
    simp only [Bool.not_eq_true', collides, List.any_eq_false, Bool.not_eq_true]
  · intro hacc
    have h := (applyReq_accept buf ⟨w, x, y, f, marginArg⟩ hacc).1
    rw [show applyReq buf ⟨w, x, y, f, marginArg⟩ =
        writeIfPossible buf w x y f marginArg from rfl, hins] at h
    rw [h]

/-- C3 (witness): instantiation of the amended theorem on the concrete
"Berlin" call: the buffer is empty so the collision test passes, and the
inserted rectangle is the margin-expanded box `[45, 61] × [45/2, 55/2]`. -/
theorem write_tests_unexpanded_inserts_expanded_witness :
    (writeIfPossible newLabelBuffer 6 100 100 7 none).1.tree = newLabelBuffer.tree ++
      [{ minX := ((project 100 100).1 : ℚ) - jsOrMargin none newLabelBuffer.margin,
         minY := ((project 100 100).2 : ℚ) - jsOrMargin none newLabelBuffer.margin / 2,
         maxX := ((project 100 100).1 : ℚ) + jsOrMargin none newLabelBuffer.margin + 6,
         maxY := ((project 100 100).2 : ℚ) + jsOrMargin none newLabelBuffer.margin / 2,
         feature := 7 }] :=
  (write_tests_unexpanded_inserts_expanded newLabelBuffer 6 100 100 7 none).2
    (by rw [write_eval_berlin])

/-- C6: `featuresAt` always evaluates to `undefined` (`none`) because its
body performs the index search but never returns it, even when the queried
point lies inside a placed rectangle: after the "Berlin" placement, the
search it discards would contain the placed rectangle (with its feature)
at interior point `(50, 25)`, yet the call still yields `none`. -/
theorem featuresAt_always_returns_undefined :
    (∀ buf x y, featuresAt buf x y = none) ∧
    featuresAt (writeIfPossible newLabelBuffer 6 100 100 7 none).1 50 25 = none ∧
    searchTree (writeIfPossible newLabelBuffer 6 100 100 7 none).1.tree
        { minX := 50, minY := 25, maxX := 50, maxY := 25, feature := 0 } =
      [{ minX := 45, minY := 45/2, maxX := 61, maxY := 55/2, feature := 7 }] := by
  refine ⟨fun _ _ _ => rfl, rfl, ?_⟩
  simp only [write_eval_berlin]
  simp only [searchTree, List.filter, intersects, decide_eq_true_eq]
  norm_num

/-- C9: `project` is a pure function computing floor division of x by 2 and
y by 4, truncating toward negative infinity — characterised here by the
floor inequalities, together with a concrete negative-input instance
(`project (-3) (-5) = (-2, -2)`, not `(-1, -1)` as truncation toward zero
would give). -/
theorem project_floors_toward_neg_infinity (x y : ℚ) :
    (((project x y).1 : ℚ) ≤ x / 2 ∧ x / 2 < (project x y).1 + 1) ∧
    (((project x y).2 : ℚ) ≤ y / 4 ∧ y / 4 < (project x y).2 + 1) ∧
    project (-3) (-5) = (-2, -2) := by
  refine ⟨⟨Int.floor_le _, ?_⟩, ⟨Int.floor_le _, ?_⟩, by norm_num [project, Prod.ext_iff]⟩
  · have h := Int.lt_floor_add_one ((x : ℚ) / 2)
    push_cast at h ⊢
    exact h
  · have h := Int.lt_floor_add_one ((y : ℚ) / 4)
    push_cast at h ⊢
    exact h

/-- C10: an explicit margin override of `0` is not honoured: `margin || this.margin`
treats `0` as falsy, so the call behaves exactly like a call with no override,
and a concrete accepted placement with override `0` is inserted with the full
default margin 5 (box `[45, 61] × [45/2, 55/2]` around grid point `(50, 25)`),
not with margin 0. -/
theorem margin_zero_override_ignored :
    (∀ buf w x y f, writeIfPossible buf w x y f (some 0) =
      writeIfPossible buf w x y f none) ∧
    (writeIfPossible newLabelBuffer 6 100 100 7 (some 0)).1.tree =
      [{ minX := 45, minY := 45/2, maxX := 61, maxY := 55/2, feature := 7 }] := by
  constructor
  · intro buf w x y f
    simp [writeIfPossible, jsOrMargin]
  · have hp : project 100 100 = (50, 25) := by norm_num [project, Prod.ext_iff]
    simp only [writeIfPossible, hasSpace, collides, calculateArea, jsOrMargin,
      newLabelBuffer, hp, List.any_nil, Bool.not_false, if_true]
    norm_num [LabelBounds.mk.injEq]

/-! TileSource embedding. -/

/-- Enumeration `modes = \x7b MBTiles: 1, VectorTile: 2, HTTP: 3 \x7d` of backend modes. -/
inductive SourceMode
  | MBTiles
  | VectorTile
  | HTTP
deriving DecidableEq, Repr

/-- State of a `TileSource`: the backend mode (`null` before `init`), the
`cache` object (string key → Tile, as an association list in JS property
insertion order; tiles are identified by a numeric id), the capacity
`cacheSize`, the insertion-order array `cached`, and a counter supplying
fresh tile identities for `new Tile(...)`. -/
structure TileState where
  mode : Option SourceMode
  cache : List (String × ℕ)
  cacheSize : ℕ
  cached : List String
  nextId : ℕ
deriving DecidableEq, Repr

/-- Outcome of `init`. `errMissingDependency` is the throw of the
"MBTiles support must be installed …" error; `errUnsupportedSource` the
throw of "source type isn't supported yet". -/
inductive InitResult
  | ok (m : SourceMode)
  | errMissingDependency
  | errUnsupportedSource
deriving DecidableEq, Repr

/-- JS `String.prototype.startsWith`: the argument is a prefix of the
receiver's character sequence. -/
def strStartsWith (s p : String) : Bool :=
  p.data.isPrefixOf s.data

/-- JS `String.prototype.endsWith`: the argument is a suffix of the
receiver's character sequence. -/
def strEndsWith (s p : String) : Bool :=
  p.data.isSuffixOf s.data

/-- Mode selection in `init(source)`: `startsWith('http')` selects HTTP,
otherwise `endsWith('.mbtiles')` selects MBTiles when the optional
`@mapbox/mbtiles` driver loaded (`mbtilesAvailable`), failing otherwise;
anything else throws the unsupported-source error. -/
def initMode (source : String) (mbtilesAvailable : Bool) : InitResult :=
  if strStartsWith source "http" then .ok .HTTP
  else if strEndsWith source ".mbtiles" then
    if mbtilesAvailable then .ok .MBTiles else .errMissingDependency
  else .errUnsupportedSource

/-- State after a successful `init` selecting mode `m`: `cache = {}`,
`cacheSize = 16`, `cached = []`. -/
def initState (m : SourceMode) : TileState :=
  { mode := some m, cache := [], cacheSize := 16, cached := [], nextId := 0 }

/-- Key construction: z, x and y joined with dashes. -/
def keyName (z x y : ℕ) : String :=
  toString z ++ "-" ++ toString x ++ "-" ++ toString y

/-- Property read on the `cache` object: `this.cache[k]`. -/
def objGet (m : List (String × ℕ)) (k : String) : Option ℕ :=
  m.lookup k

/-- Property write on the `cache` object: `this.cache[k] = v` keeps an
existing key's position and appends a new key. -/
def objSet : List (String × ℕ) → String → ℕ → List (String × ℕ)
  | [], k, v => [(k, v)]
  | p :: rest, k, v => if p.1 = k then (k, v) :: rest else p :: objSet rest k v

/-- A JS number that is either an exact integer or NaN. -/
inductive JSNum
  | num (n : ℤ)
  | nan
deriving DecidableEq, Repr

/-- JS subtraction: NaN is absorbing. -/
def jsSub (a b : JSNum) : JSNum :=
  match a, b with
  | .num x, .num y => .num (x - y)
  | _, _ => .nan

/-- Function `Math.abs`: `Math.abs(NaN)` is NaN. -/
def jsAbs : JSNum → JSNum
  | .num x => .num |x|
  | .nan => .nan

/-- The value of `this.cache.length` as an arithmetic operand: `cache` is a
plain object, so its `length` property is `undefined` unless some tile key
is literally the string "length" — impossible for keys of the form
`z-x-y`, and even then the property would hold a Tile object. Both
`undefined` and a plain object coerce to NaN in numeric subtraction. -/
def cacheLengthOperand (_cache : List (String × ℕ)) : JSNum :=
  .nan

/-- Conversion `ToIntegerOrInfinity` as applied by `Array.prototype.splice` to its
`deleteCount` argument: NaN converts to 0. -/
def toIntegerOrZeroOnNaN : JSNum → ℤ
  | .num n => n
  | .nan => 0

/-- The eviction block of `getTile`:
`if (this.cached.length > this.cacheSize) { const overflow = Math.abs(this.cacheSize - this.cache.length); for (const tile in this.cached.splice(0, overflow)) { delete this.cache[tile]; } }`.
`splice(0, overflow)` removes (and returns) the first `overflow` elements,
clamping negative/NaN counts to 0; `for…in` over the returned array
iterates its index strings "0", "1", …, so the deletes target those index
strings, not tile names. -/
def evict (s : TileState) : TileState :=
  if s.cached.length > s.cacheSize then
    let overflow := toIntegerOrZeroOnNaN
      (jsAbs (jsSub (.num s.cacheSize) (cacheLengthOperand s.cache)))
    let k := overflow.toNat
    let removed := s.cached.take k
    let rest := s.cached.drop k
    (List.range removed.length).foldl
      (fun acc i => { acc with cache := acc.cache.filter (fun p => p.1 ≠ toString i) })
      { s with cached := rest }
  else s

/-- Result of a synchronous `getTile` call. `errNoSource` is the throw of
"no TileSource defined"; `hit` is `Promise.resolve(cached)`;
`fetchIssued` records that the mode-specific fetch path was invoked
(`_getMBTile` or `_getHTTP`); `errUnsupportedMode` is the default-case
throw. -/
inductive GetTileResult
  | errNoSource
  | hit (tileId : ℕ)
  | fetchIssued (m : SourceMode)
  | errUnsupportedMode
deriving DecidableEq, Repr

/-- Method `getTile(z, x, y)` up to the point where it either returns a cached
tile or hands off to the mode-specific asynchronous fetch. -/
def getTile (s : TileState) (z x y : ℕ) : TileState × GetTileResult :=
  match s.mode with
  | none => (s, .errNoSource)
  | some m =>
    match objGet s.cache (keyName z x y) with
    | some tid => (s, .hit tid)
    | none =>
      let s1 := evict s
      match m with
      | .MBTiles => (s1, .fetchIssued .MBTiles)
      | .HTTP => (s1, .fetchIssued .HTTP)
      | .VectorTile => (s1, .errUnsupportedMode)

/-- Method `_createTile(z, x, y, buffer)`: pushes the key onto `cached`, stores a
fresh Tile in the cache, and returns it. Modelled from the spec for the
part outside `src/`: `Tile.load` (`Tile.js` is not among the sources)
resolves to the decoded, render-ready Tile itself, so the identity returned
to the caller is the identity stored in the cache. -/
def createTile (s : TileState) (z x y : ℕ) : TileState × ℕ :=
  let name := keyName z x y
  let tid := s.nextId
  ({ s with
      cached := s.cached ++ [name]
      cache := objSet s.cache name tid
      nextId := s.nextId + 1 }, tid)

/-- How the promise returned by a fetch path settles. -/
inductive Settled
  | resolvedTile (tid : ℕ)
  | rejected
deriving DecidableEq, Repr

/-- Completion of `_getMBTile`'s callback `(err, buffer) => { if (err) { reject(err); } resolve(this._createTile(z, x, y, buffer)); }`:
on error it rejects, but — lacking a `return` after `reject(err)` —
execution continues and still evaluates `this._createTile(...)`, mutating
the cache; the promise stays rejected because the first settlement wins. -/
def mbtilesFetchComplete (s : TileState) (z x y : ℕ) (failed : Bool) :
    TileState × Settled :=
  if failed then
    ((createTile s z x y).1, .rejected)
  else
    ((createTile s z x y).1, .resolvedTile (createTile s z x y).2)

/-- Completion of `_getHTTP`'s promise chain: on fetch failure the
rejection skips the `.then` continuations, so `_createTile` never runs;
on success `_createTile` runs. -/
def httpFetchComplete (s : TileState) (z x y : ℕ) (failed : Bool) :
    TileState × Settled :=
  if failed then
    (s, .rejected)
  else
    ((createTile s z x y).1, .resolvedTile (createTile s z x y).2)

/-- One fully completed successful request per key: `getTile` followed by
the successful completion of the HTTP fetch it issued. -/
def insertKeys (s : TileState) : List (ℕ × ℕ × ℕ) → TileState
  | [] => s
  | (z, x, y) :: rest =>
    insertKeys (httpFetchComplete (getTile s z x y).1 z x y false).1 rest

/-- The eviction block never changes the state: `this.cache.length` reads
an absent property of a plain object, so `overflow` is
`Math.abs(16 - undefined) = NaN`, `splice(0, NaN)` removes nothing, and
the `for…in` loop over the empty returned array performs no deletes. -/
theorem evict_eq (s : TileState) : evict s = s := by
  unfold evict
  split
  · rfl
  · rfl

theorem objGet_objSet_self (m : List (String × ℕ)) (k : String) (v : ℕ) :
    objGet (objSet m k v) k = some v := by
  induction m with
  | nil => simp [objSet, objGet, List.lookup]
  | cons p rest ih =>
    by_cases hp : p.1 = k
    · simp [objSet, hp, objGet, List.lookup]
    · simp only [objSet, hp, if_false]
      have hk : (k == p.1) = false := beq_eq_false_iff_ne.mpr (Ne.symm hp)
      simpa [objGet, List.lookup, hk] using ih

/-- C5: a `getTile` call before initialization throws the
no-TileSource-defined error; after a successful first fetch for an
uncached key, a second `getTile` for the same key returns the very tile
identity produced by the first call's `_createTile`, leaving the state
untouched (no eviction pass, no fetch dispatch — the cache-hit return
precedes both). -/
theorem getTile_cache_hit_short_circuit (s : TileState) (z x y : ℕ) :
    (s.mode = none → getTile s z x y = (s, .errNoSource)) ∧
    (∀ m, s.mode = some m → objGet s.cache (keyName z x y) = none →
      getTile (createTile (getTile s z x y).1 z x y).1 z x y =
        ((createTile (getTile s z x y).1 z x y).1,
          .hit (createTile (getTile s z x y).1 z x y).2)) := by
  constructor
  · intro h
    simp [getTile, h]
  · intro m hm hmiss
    have h1 : (getTile s z x y).1 = s := by
      cases m <;> simp [getTile, hm, hmiss, evict_eq]
    rw [h1]
    have hmode : (createTile s z x y).1.mode = some m := by
      simp [createTile, hm]
    have hhit : objGet (createTile s z x y).1.cache (keyName z x y) =
        some (createTile s z x y).2 := by
      simp [createTile, objGet_objSet_self]
    simp [getTile, hmode, hhit]

/-- C5 (witness): concrete instantiation on a freshly initialized HTTP
store and key (1, 2, 3). -/
theorem getTile_cache_hit_short_circuit_witness :
    getTile (createTile (getTile (initState .HTTP) 1 2 3).1 1 2 3).1 1 2 3 =
      ((createTile (getTile (initState .HTTP) 1 2 3).1 1 2 3).1,
        .hit (createTile (getTile (initState .HTTP) 1 2 3).1 1 2 3).2) :=
  (getTile_cache_hit_short_circuit (initState .HTTP) 1 2 3).2 .HTTP rfl rfl

/-- The 18 distinct keys (0, 0, 0) … (0, 17, 0) in order. -/
def eighteenKeys : List (ℕ × ℕ × ℕ) :=
  (List.range 18).map (fun i => (0, i, 0))

/-- C1: after 18 successful insertions into a capacity-16 store, nothing
has been evicted: both the insertion-order sequence and the mapping still
hold all 18 keys, the oldest key "0-0-0" included — the eviction block's
`Math.abs(this.cacheSize - this.cache.length)` is NaN (plain objects have
no `length`), `splice(0, NaN)` removes nothing, and the `for…in` deletes
would target array index strings rather than tile names anyway. -/
theorem no_eviction_all_keys_remain :
    (insertKeys (initState .HTTP) eighteenKeys).cached.length = 18 ∧
    (insertKeys (initState .HTTP) eighteenKeys).cache.length = 18 ∧
    objGet (insertKeys (initState .HTTP) eighteenKeys).cache "0-0-0" = some 0 ∧
    (insertKeys (initState .HTTP) eighteenKeys).cached.take 2 =
      ["0-0-0", "0-1-0"] := by
  decide

/-- C4: in MBTiles mode a failed fetch corrupts the cache: the callback
rejects the promise but — with no `return` after `reject(err)` — still
runs `_createTile`, so the rejected request leaves a fresh entry for its
key in both the mapping and the insertion-order sequence (the store
started empty). -/
theorem failed_mbtiles_fetch_inserts_entry :
    (getTile (initState .MBTiles) 0 0 0).2 = .fetchIssued .MBTiles ∧
    (mbtilesFetchComplete (getTile (initState .MBTiles) 0 0 0).1 0 0 0 true).2 =
      .rejected ∧
    (mbtilesFetchComplete (getTile (initState .MBTiles) 0 0 0).1 0 0 0 true).1.cache =
      [("0-0-0", 0)] ∧
    (mbtilesFetchComplete (getTile (initState .MBTiles) 0 0 0).1 0 0 0 true).1.cached =
      ["0-0-0"] ∧
    (getTile (initState .MBTiles) 0 0 0).1.cache = [] := by
  decide

/-- C7 (counterexample): two `getTile` calls for the same uncached key,
the second arriving before the first fetch completes, each invoke the
mode-specific fetch path — there is no in-flight table, so nothing
coalesces them into one underlying fetch. -/
theorem concurrent_getTile_issues_two_fetches :
    (getTile (initState .HTTP) 0 0 0).2 = .fetchIssued .HTTP ∧
    (getTile (getTile (initState .HTTP) 0 0 0).1 0 0 0).2 = .fetchIssued .HTTP := by
  decide

/-- C7 (amended): `getTile` calls for an identical uncached key arriving
before the first fetch completes are not coalesced: every such call issues
its own underlying fetch (and leaves the state unchanged until some fetch
completes). -/
theorem concurrent_getTile_each_issues_fetch (s : TileState) (z x y : ℕ)
    (m : SourceMode) (hm : s.mode = some m) (hvt : m ≠ .VectorTile)
    (hmiss : objGet s.cache (keyName z x y) = none) :
    getTile s z x y = (s, .fetchIssued m) ∧
    getTile (getTile s z x y).1 z x y = (s, .fetchIssued m) := by
  have h1 : getTile s z x y = (s, .fetchIssued m) := by
    cases m with
    | MBTiles => simp [getTile, hm, hmiss, evict_eq]
    | HTTP => simp [getTile, hm, hmiss, evict_eq]
    | VectorTile => exact absurd rfl hvt
  exact ⟨h1, by rw [h1]; exact h1⟩

/-- C7 (amended, witness): concrete instantiation on a fresh HTTP store. -/
theorem concurrent_getTile_each_issues_fetch_witness :
    getTile (getTile (initState .HTTP) 0 0 0).1 0 0 0 =
      (initState .HTTP, .fetchIssued .HTTP) :=
  (concurrent_getTile_each_issues_fetch (initState .HTTP) 0 0 0 .HTTP rfl
    (by decide) rfl).2

/-- C8: `init` mode selection — an `http`-prefixed locator selects HTTP
mode; otherwise an `.mbtiles`-suffixed locator selects MBTiles mode when
the optional driver is present and fails with the missing-dependency error
when it is absent; every other locator fails with the unsupported-source
error. Includes the specification's concrete examples. -/
theorem initMode_selection (s : String) (avail : Bool) :
    (strStartsWith s "http" = true → initMode s avail = .ok .HTTP) ∧
    (strStartsWith s "http" = false → strEndsWith s ".mbtiles" = true →
      avail = true → initMode s avail = .ok .MBTiles) ∧
    (strStartsWith s "http" = false → strEndsWith s ".mbtiles" = true →
      avail = false → initMode s avail = .errMissingDependency) ∧
    (strStartsWith s "http" = false → strEndsWith s ".mbtiles" = false →
      initMode s avail = .errUnsupportedSource) ∧
    initMode "http://example.test/" avail = .ok .HTTP ∧
    initMode "foo.mbtiles" true = .ok .MBTiles ∧
    initMode "foo.mbtiles" false = .errMissingDependency ∧
    initMode "foo.txt" avail = .errUnsupportedSource := by
  refine ⟨fun h1 => by simp [initMode, h1], fun h1 h2 h3 => by simp [initMode, h1, h2, h3],
    fun h1 h2 h3 => by simp [initMode, h1, h2, h3], fun h1 h2 => by simp [initMode, h1, h2],
    ?_, ?_, ?_, ?_⟩
  · have : strStartsWith "http://example.test/" "http" = true := by decide
    simp [initMode, this]
  · decide
  · decide
  · have h1 : strStartsWith "foo.txt" "http" = false := by decide
    have h2 : strEndsWith "foo.txt" ".mbtiles" = false := by decide
    simp [initMode, h1, h2]

/-- C8 (witness): an `https` locator is `http`-prefixed, so initialization
selects HTTP mode. -/
theorem initMode_selection_witness :
    initMode "https://tiles.example/" true = .ok .HTTP :=
  (initMode_selection "https://tiles.example/" true).1 (by decide)

end Mapscii
